import Mathlib

set_option maxHeartbeats 1000000

/-
Shallow embedding of `src/streamlit_app.py` (the ULE2 Streamlit training app).

Pure string manipulation (the asset-tag regexes, the `[VALIDATE: ALL]`
substring test, the asset-id cleaning) is embedded directly over `List Char`.
Stateful Streamlit session handling is embedded as explicit state passing on a
`SessionState` record; Firestore writes are embedded as the association-list
document payload each call produces; external collaborators (URL signing, the
file system, JSON parsing, password hashing) are parameters.
-/

/-- Python `\s` for the ASCII range (the characters the app's regexes and
`str.strip` treat as whitespace). -/
def isPySpace (c : Char) : Bool :=
  c == ' ' || c == '\t' || c == '\n' || c == '\r' || c == '\x0b' || c == '\x0c'

/-- Case-insensitive character comparison, for the `re.IGNORECASE` flag. -/
def ciEq (a b : Char) : Bool := a.toLower == b.toLower

/-- Match a literal keyword case-insensitively at the head of the input.
Returns the consumed original characters and the rest. -/
def matchKw : List Char → List Char → Option (List Char × List Char)
  | [], cs => some ([], cs)
  | _ :: _, [] => none
  | k :: ks, c :: cs =>
    if ciEq k c then
      match matchKw ks cs with
      | some (tk, r) => some (c :: tk, r)
      | none => none
    else none

/-- Consume a maximal run of whitespace: the `\s*` pieces of the tag regexes.
Maximal munch is faithful here because every token that follows a `\s*` in
those regexes starts with a non-whitespace character. -/
def dropSpaces : List Char → List Char
  | [] => []
  | c :: cs => if isPySpace c then dropSpaces cs else c :: cs

/-- Greedy `[^\]\s]+` character-class run: split off the maximal prefix of
characters that are neither `]` nor whitespace. -/
def takeIdChars : List Char → List Char × List Char
  | [] => ([], [])
  | c :: cs =>
    if c == ']' || isPySpace c then ([], c :: cs)
    else
      match takeIdChars cs with
      | (tk, r) => (c :: tk, r)

/-- The optional tag head. With `idOpt = false` this is `Asset\s*ID:\s*`
(the `process_ai_response` regex); with `idOpt = true` it is
`Asset\s*(?:ID)?:\s*` (the chat-input / handshake / graduate handler regex).
Returns the rest of the input after the head when it matches. -/
def matchTagPre (idOpt : Bool) (cs : List Char) : Option (List Char) :=
  match matchKw (("Asset").toList) cs with
  | none => none
  | some (_, r1) =>
    let r2 := dropSpaces r1
    match matchKw (("ID").toList) r2 with
    | some (_, r3) =>
      match r3 with
      | ':' :: r4 => some (dropSpaces r4)
      | _ =>
        if idOpt then
          match r2 with
          | ':' :: r4 => some (dropSpaces r4)
          | _ => none
        else none
    | none =>
      if idOpt then
        match r2 with
        | ':' :: r4 => some (dropSpaces r4)
        | _ => none
      else none

/-- The capture group `((?:IMG|VID)-[^\]\s]+)`: keyword (case-insensitive,
leftmost alternative first), a literal `-`, then at least one class character.
Returns the captured characters (original case) and the rest. -/
def matchTagBody (cs : List Char) : Option (List Char × List Char) :=
  let attempt := fun (kw : String) =>
    match matchKw (kw.toList) cs with
    | some (tk, r1) =>
      match r1 with
      | '-' :: r2 =>
        match takeIdChars r2 with
        | ([], _) => none
        | (idc, r3) => some (tk ++ '-' :: idc, r3)
      | _ => none
    | none => none
  match attempt ("IMG") with
  | some res => some res
  | none => attempt ("VID")

/-- Try the whole tag regex anchored at this position: `[`, optional head,
capture group, `]`. The backtracking a PCRE engine would do is vacuous here
(the optional head starts with `A`, the group with `I`/`V`, and the class
excludes `]` and whitespace), so this deterministic form is equivalent. -/
def matchTagAt (idOpt : Bool) (cs : List Char) : Option (List Char × List Char) :=
  match cs with
  | '[' :: r1 =>
    let r2 := match matchTagPre idOpt r1 with
              | some r => r
              | none => r1
    match matchTagBody r2 with
    | some (grp, r3) =>
      match r3 with
      | ']' :: r4 => some (grp, r4)
      | _ => none
    | none => none
  | _ => none

/-- `re.findall` scan: try the tag at each position left to right, recording
captures of non-overlapping matches. Fuel bounds the number of scan steps;
each step consumes at least one character, so `length + 1` fuel is exact. -/
def findTagsAux (idOpt : Bool) : Nat → List Char → List String
  | 0, _ => []
  | _ + 1, [] => []
  | fuel + 1, c :: cs =>
    match matchTagAt idOpt (c :: cs) with
    | some (grp, rest) => grp.asString :: findTagsAux idOpt fuel rest
    | none => findTagsAux idOpt fuel cs

/-- All capture-group results of the asset-tag regex over a string, in order.
`re.search` (used by the module-level handlers) is the head of this list;
`found_assets[-1]` (used by `process_ai_response`) is its last element. -/
def findAssetTags (idOpt : Bool) (s : String) : List String :=
  findTagsAux idOpt (s.toList.length + 1) s.toList

/-- Does `pat` occur at the head of the input (case-sensitive)? -/
def listHasHead : List Char → List Char → Bool
  | [], _ => true
  | _ :: _, [] => false
  | p :: ps, c :: cs => p == c && listHasHead ps cs

/-- Python `needle in haystack` substring containment (case-sensitive). -/
def containsSub (needle : List Char) : List Char → Bool
  | [] => needle.isEmpty
  | c :: cs => listHasHead needle (c :: cs) || containsSub needle cs

/-- The mastery check `"[VALIDATE: ALL]" in response_text`. -/
def containsValidateAll (response_text : String) : Bool :=
  containsSub (("[VALIDATE: ALL]").toList) response_text.toList

/-- Python `str.strip()` over the ASCII whitespace set. -/
def pyStrip (cs : List Char) : List Char :=
  ((cs.dropWhile isPySpace).reverse.dropWhile isPySpace).reverse

/-- `str.strip()` on a `String`. -/
def pyStripStr (s : String) : String := (pyStrip s.toList).asString

/-- `str.upper()` on a `String` (ASCII case mapping). -/
def pyUpper (s : String) : String := (s.toList.map Char.toUpper).asString

example : findAssetTags true ("See [IMG-a] and [VID-b]") = [("IMG-a"), ("VID-b")] := by decide
example : findAssetTags false ("x [AssetID: VID-ARCH1] y") = [("VID-ARCH1")] := by decide
example : findAssetTags true ("[Asset: img-2]") = [("img-2")] := by decide
example : findAssetTags false ("[Asset: img-2]") = [] := by decide
example : findAssetTags true ("[IMG-]") = [] := by decide
example : containsValidateAll ("ok [VALIDATE: ALL]") = true := by decide
example : containsValidateAll ("ok [VALIDATE: all]") = false := by decide

/-- One chat message: `{"role": ..., "content": ...}`. -/
structure ChatMsg where
  role : String
  content : String
deriving Repr, DecidableEq

/-- One lesson entry of the JSON manifest (the fields the logic reads). -/
structure Lesson where
  id : String
  title : String
deriving Repr, DecidableEq

/-- One module entry of the JSON manifest. -/
structure CourseModule where
  id : String
  title : String
  lessons : List Lesson
deriving Repr, DecidableEq

/-- One `resource_library` entry of the manifest. -/
structure AssetInfo where
  path : String
deriving Repr, DecidableEq

/-- The parsed `skyhigh_manifest.json`. -/
structure Manifest where
  modules : List CourseModule
  resource_library : List (String × AssetInfo)
deriving Repr, DecidableEq

/-- A Firestore field value. `timestamp` stands for `firestore.SERVER_TIMESTAMP`. -/
inductive FieldValue where
  | str : String → FieldValue
  | num : Int → FieldValue
  | bool : Bool → FieldValue
  | chatList : List ChatMsg → FieldValue
  | strList : List String → FieldValue
  | timestamp : FieldValue
deriving Repr, DecidableEq

/-- A Firestore document payload, in the field order the source writes it. -/
abbrev Doc := List (String × FieldValue)

/-- Is the value a boolean or a number? (The spec's claimed type for the
persisted completion field.) -/
def FieldValue.isBoolOrNumeric : FieldValue → Bool
  | FieldValue.bool _ => true
  | FieldValue.num _ => true
  | _ => false

/-- The `st.session_state` keys the verified logic touches. `active_visual`
as `none` covers both an absent key and a stored Python `None` (the source
reads it with `st.session_state.get("active_visual", "")` or a truthiness
test, so the two are observationally merged everywhere it is consumed). -/
structure SessionState where
  username : String
  authentication_status : Bool
  active_lesson : String
  active_mod : String
  archived_status : List (String × Bool)
  lesson_chats : List (String × List ChatMsg)
  lesson_assets : List (String × List String)
  chat_history : List ChatMsg
  active_visual : Option String
  needs_handshake : Bool
deriving Repr, DecidableEq

/-- Python dict assignment `d[k] = v` on an association list: replace the
binding if the key is present, else append the new binding. -/
def setKey {α : Type} (k : String) (v : α) : List (String × α) → List (String × α)
  | [] => [(k, v)]
  | (j, w) :: rest => if j = k then (k, v) :: rest else (j, w) :: setKey k v rest

theorem lookup_setKey_self {α : Type} (k : String) (v : α) (d : List (String × α)) :
    (setKey k v d).lookup k = some v := by
  induction d with
  | nil => simp [setKey, List.lookup]
  | cons p rest ih =>
    obtain ⟨j, w⟩ := p
    by_cases h : j = k
    · subst h; simp [setKey, List.lookup]
    · have hb : (k == j) = false := by
        simp only [beq_eq_false_iff_ne, ne_eq]
        exact fun hh => h hh.symm
      simp [setKey, h, List.lookup, hb, ih]

theorem lookup_setKey_ne {α : Type} (k j : String) (v : α) (d : List (String × α))
    (h : j ≠ k) : (setKey k v d).lookup j = d.lookup j := by
  have hjk : (j == k) = false := by
    simp only [beq_eq_false_iff_ne, ne_eq]; exact h
  induction d with
  | nil => simp [setKey, List.lookup, hjk]
  | cons p rest ih =>
    obtain ⟨a, w⟩ := p
    by_cases ha : a = k
    · subst ha
      simp [setKey, List.lookup, hjk]
    · simp only [setKey, ha, if_false, List.lookup]
      by_cases hj : j = a
      · subst hj; simp
      · have hb : (j == a) = false := by
          simp only [beq_eq_false_iff_ne, ne_eq]; exact hj
        simp [hb, ih]

/-- `save_audit_progress` (src lines 259-274): the per-lesson document pushed
to `users/{email}/lessons/{lesson_id}`, produced only when
`authentication_status` is truthy. -/
def save_audit_progress (s : SessionState) : Option Doc :=
  if s.authentication_status then
    some [ (("lesson_id"), FieldValue.str s.active_lesson),
           (("status"), FieldValue.str
             (if (s.archived_status.lookup s.active_lesson).getD false
              then ("Passed") else ("In Progress"))),
           (("chat_history"), FieldValue.chatList s.chat_history),
           (("assets_surfaced"), FieldValue.str ((s.active_visual).getD (""))),
           (("last_updated"), FieldValue.timestamp) ]
  else none

/-- `update_lesson_mastery` (src lines 404-416): the per-lesson document,
written only when a `username` is present. -/
def update_lesson_mastery (s : SessionState) (lesson_id status : String) : Option Doc :=
  if s.username ≠ "" then
    some [ (("lesson_id"), FieldValue.str lesson_id),
           (("status"), FieldValue.str status),
           (("chat_history"), FieldValue.chatList
             ((s.lesson_chats.lookup lesson_id).getD [])),
           (("assets_surfaced"), FieldValue.strList
             ((s.lesson_assets.lookup lesson_id).getD [])),
           (("last_updated"), FieldValue.timestamp) ]
  else none

/-- The user-credential document the registration form handler writes to
`users/{new_email}` (src lines 627-635). `hash` models the external
`Hasher([new_password]).generate()[0]`. -/
def registration_user_doc (hash : String → String)
    (new_email new_company new_name new_password u_experience u_aspiration : String) : Doc :=
  [ (("email"), FieldValue.str new_email),
    (("company"), FieldValue.str new_company),
    (("full_name"), FieldValue.str new_name),
    (("password"), FieldValue.str (hash new_password)),
    (("experience"), FieldValue.str u_experience),
    (("aspiration"), FieldValue.str u_aspiration),
    (("created_at"), FieldValue.timestamp) ]

/-- `process_ai_response` (src lines 426-454): append the model message to the
live buffer, sync the ledger, record the LAST asset-tag capture (strict
`Asset\s*ID:` head variant), and on `[VALIDATE: ALL]` persist mastery and set
`archived_status`. Returns the new state and the Firestore write, if any. -/
def process_ai_response (s : SessionState) (response_text : String) :
    SessionState × Option Doc :=
  let current_lesson := s.active_lesson
  let hist := s.chat_history ++ [ChatMsg.mk ("model") response_text]
  let s1 := { s with chat_history := hist,
                     lesson_chats := setKey current_lesson hist s.lesson_chats }
  let s2 := match (findAssetTags false response_text).getLast? with
    | some latest0 =>
      let latest := pyStripStr latest0
      { s1 with active_visual := some latest,
                lesson_assets := setKey current_lesson
                  (((s1.lesson_assets.lookup current_lesson).getD []) ++ [latest])
                  s1.lesson_assets }
    | none => s1
  if containsValidateAll response_text then
    ({ s2 with archived_status := setKey current_lesson true s2.archived_status },
     update_lesson_mastery s2 current_lesson ("Passed"))
  else (s2, none)

/-- The module-level chat-input handler (src lines 1006-1034): append the user
message, record the FIRST asset-tag capture uppercased (relaxed
`Asset\s*(?:ID)?:` head variant), set `archived_status` on `[VALIDATE: ALL]`,
append the model message, sync the ledger, and save. -/
def chat_input_handler (s : SessionState) (user_input raw_response : String) :
    SessionState × Option Doc :=
  let s1 := { s with chat_history := s.chat_history ++ [ChatMsg.mk ("user") user_input] }
  let s2 := match (findAssetTags true raw_response).head? with
    | some g =>
      let latest := pyUpper (pyStripStr g)
      { s1 with active_visual := some latest,
                lesson_assets := setKey s1.active_lesson
                  (((s1.lesson_assets.lookup s1.active_lesson).getD []) ++ [latest])
                  s1.lesson_assets }
    | none => s1
  let s3 := if containsValidateAll raw_response
            then { s2 with archived_status := setKey s2.active_lesson true s2.archived_status }
            else s2
  let hist := s3.chat_history ++ [ChatMsg.mk ("model") raw_response]
  let s4 := { s3 with chat_history := hist,
                      lesson_chats := setKey s3.active_lesson hist s3.lesson_chats }
  (s4, save_audit_progress s4)

/-- The handshake handler (src lines 974-990): record the FIRST asset-tag
capture uppercased, replace the live buffer with the greeting, clear the
handshake flag, sync the ledger, and save. It never appends to
`lesson_assets` and never checks for mastery. -/
def handshake_handler (s : SessionState) (response_text : String) :
    SessionState × Option Doc :=
  let s1 := match (findAssetTags true response_text).head? with
    | some g => { s with active_visual := some (pyUpper (pyStripStr g)) }
    | none => s
  let hist := [ChatMsg.mk ("model") response_text]
  let s2 := { s1 with chat_history := hist, needs_handshake := false,
                      lesson_chats := setKey s1.active_lesson hist s1.lesson_chats }
  (s2, save_audit_progress s2)

/-- The lesson-roadmap button handler (src lines 941-960): park the live chat
under the outgoing lesson (the guard is Python string truthiness), repoint
`active_lesson`, hydrate the live buffer from the ledger, reset the HUD, and
set the handshake flag from emptiness of the hydrated history. -/
def roadmap_button_handler (s : SessionState) (lesson_id : String) : SessionState :=
  let s1 := if s.active_lesson ≠ ""
            then { s with lesson_chats := setKey s.active_lesson s.chat_history s.lesson_chats }
            else s
  let newHist := (s1.lesson_chats.lookup lesson_id).getD []
  { s1 with active_lesson := lesson_id, chat_history := newHist,
            active_visual := none, needs_handshake := newHist.isEmpty }

/-- The sidebar module button handler (src lines 855-874): same parking, then
switch to the FIRST lesson of the chosen module (`mod['lessons'][0]` raises on
an empty module, modelled as `none`). -/
def sidebar_module_handler (s : SessionState) (md : CourseModule) : Option SessionState :=
  match md.lessons.head? with
  | none => none
  | some l0 =>
    let s1 := if s.active_lesson ≠ ""
              then { s with lesson_chats := setKey s.active_lesson s.chat_history s.lesson_chats }
              else s
    let newHist := (s1.lesson_chats.lookup l0.id).getD []
    some { s1 with active_mod := md.id, active_lesson := l0.id, chat_history := newHist,
                   active_visual := none, needs_handshake := newHist.isEmpty }

/-- The lesson-roadmap unlock rule (src lines 913-920): index 0 of the
rendered module's lesson list is always unlocked; a later index is unlocked
exactly when the previous list item's `archived_status` entry `== True`. -/
def roadmap_is_unlocked (archived : List (String × Bool)) (lessons : List Lesson)
    (idx : Nat) : Bool :=
  if idx = 0 then true
  else match lessons[idx-1]? with
       | some prev => archived.lookup prev.id == some true
       | none => false

/-- The sidebar module unlock rule (src lines 841-848): module 0 is always
unlocked; a later module is unlocked exactly when every lesson of the previous
module has a truthy `archived_status` entry (`all(...get(...))`). -/
def sidebar_mod_unlocked (archived : List (String × Bool))
    (modules : List CourseModule) (i : Nat) : Bool :=
  if i = 0 then true
  else match modules[i-1]? with
       | some prev => prev.lessons.all (fun l => (archived.lookup l.id).getD false)
       | none => false

/-- The flattened lesson-id list `[l['id'] for mod in manifest['modules'] for l
in mod['lessons']]` used by graduation, the gauge and smart resume. -/
def all_manifest_lessons (m : Manifest) : List String :=
  (m.modules.map (fun md => md.lessons.map Lesson.id)).flatten

/-- `check_graduation_status` (src lines 456-463): the completed count is taken
over ALL `archived_status` entries with a `True` value; the ratio to the
manifest lesson count (0 when the manifest is empty) must reach 1.0. -/
def check_graduation_status (m : Manifest) (archived : List (String × Bool)) : Bool :=
  let total := (all_manifest_lessons m).length
  let completed := (archived.filter (fun p => p.2)).length
  let progress : ℚ := if total = 0 then 0 else (completed : ℚ) / (total : ℚ)
  decide (1 ≤ progress)

/-- One document of the `users/{email}/lessons` subcollection as
`load_audit_progress` consumes it: the Firestore document id, the `status`
field and the `chat_history` field (with its `.get` default applied). -/
structure LessonDoc where
  id : String
  status : String
  chat_history : List ChatMsg
deriving Repr, DecidableEq

/-- Hydration `archived_status[l_id] = (l_data.get("status") == "Passed")`.
Firestore document ids within a collection are unique, so successive dict
assignment over the stream is association-list construction. -/
def hydrate_status (docs : List LessonDoc) : List (String × Bool) :=
  docs.map (fun d => (d.id, d.status == ("Passed")))

/-- Hydration `lesson_chats[l_id] = l_data.get("chat_history", [])`. -/
def hydrate_chats (docs : List LessonDoc) : List (String × List ChatMsg) :=
  docs.map (fun d => (d.id, d.chat_history))

/-- The lesson-hydration and smart-resume part of `load_audit_progress`
(src lines 276-324; the profile-string hydration of lines 281-288 touches no
state the claims mention). Resume is the first manifest lesson whose hydrated
`archived_status` is not truthy, defaulting to `"GEAR-01"`; the active module
becomes the first module whose lesson-id list contains the resume lesson, and
the live buffer becomes the resume lesson's stored transcript. -/
def load_audit_progress (m : Manifest) (docs : List LessonDoc) (s : SessionState) :
    SessionState :=
  let archived := hydrate_status docs
  let chats := hydrate_chats docs
  let resume := ((all_manifest_lessons m).find?
    (fun lid => ! ((archived.lookup lid).getD false))).getD ("GEAR-01")
  let newMod := match m.modules.find?
      (fun md => (md.lessons.map Lesson.id).contains resume) with
    | some md => md.id
    | none => s.active_mod
  { s with archived_status := archived, lesson_chats := chats,
           active_lesson := resume,
           chat_history := (chats.lookup resume).getD [],
           active_mod := newMod }

/-- Remove every `[` or `]` character (`str.replace(c, "")`). -/
def removeChar (c : Char) (s : List Char) : List Char := s.filter (fun x => x ≠ c)

/-- `str.replace("AssetID:", "")`: delete every non-overlapping occurrence of
the 8-character marker, scanning left to right (case-sensitive). -/
def removeAssetIdTag : List Char → List Char
  | 'A' :: 's' :: 's' :: 'e' :: 't' :: 'I' :: 'D' :: ':' :: rest => removeAssetIdTag rest
  | c :: rest => c :: removeAssetIdTag rest
  | [] => []

/-- The id-cleaning pipeline shared by `resolve_asset_url` and the HUD column:
`asset_id.replace("[","").replace("]","").replace("AssetID:","").strip()`. -/
def clean_asset_id (asset_id : String) : String :=
  (pyStrip (removeAssetIdTag (removeChar (']') (removeChar ('[') asset_id.toList)))).asString

/-- `PROJECT_ID` (src line 32). -/
def PROJECT_ID : String := "otterspool-labs-core"

/-- The argument record of `blob.generate_signed_url` as `resolve_asset_url`
builds it (src lines 344-349). -/
structure SignRequest where
  version : String
  expiration_minutes : Nat
  method : String
  service_account_email : String
  blob_path : String
deriving Repr, DecidableEq

/-- The exact signing request the resolver issues for a blob path. -/
def sign_request_for (path : String) : SignRequest :=
  { version := "v4", expiration_minutes := 15, method := "GET",
    service_account_email := PROJECT_ID ++ ("@appspot.gserviceaccount.com"),
    blob_path := path }

/-- `resolve_asset_url` (src lines 327-354). `sign` models the object store:
`Except.error` is a raised exception, which the source catches and converts to
`None`. A falsy (empty / `None`) id, an id missing from the resource library,
and a signing failure all yield `none`. -/
def resolve_asset_url (sign : SignRequest → Except String String)
    (lib : List (String × AssetInfo)) (asset_id : String) : Option String :=
  if asset_id = "" then none
  else
    match lib.lookup (clean_asset_id asset_id) with
    | none => none
    | some info =>
      match sign (sign_request_for info.path) with
      | Except.ok url => some url
      | Except.error _ => none

/-- Does `s` end with `suf`? (`str.endswith`). -/
def strEndsWith (suf s : String) : Bool :=
  listHasHead suf.toList.reverse s.toList.reverse

/-- What the HUD asset column renders. -/
inductive HudRender where
  | placeholder
  | video : String → HudRender
  | image : String → HudRender
  | resolveError : String → HudRender
deriving Repr, DecidableEq

/-- The HUD asset column (src lines 1036-1120): placeholder when
`active_visual` is falsy; otherwise clean the id, resolve a signed URL for the
cleaned id, render video/image by the manifest path's extension, and on a
failed resolution show the inline error `f"Failed to resolve {asset_id}"`. -/
def hud_asset_column (sign : SignRequest → Except String String) (m : Manifest)
    (s : SessionState) : HudRender :=
  match s.active_visual with
  | none => HudRender.placeholder
  | some asset_id =>
    if asset_id = "" then HudRender.placeholder
    else
      let clean_id := clean_asset_id asset_id
      let path := match m.resource_library.lookup clean_id with
                  | some info => info.path
                  | none => ""
      match resolve_asset_url sign m.resource_library clean_id with
      | some url =>
        if strEndsWith (".mp4") path.toLower || strEndsWith (".mov") path.toLower
        then HudRender.video url else HudRender.image url
      | none => HudRender.resolveError (("Failed to resolve ") ++ asset_id)

/-- A single-quote character, spelled via its code point. -/
def SQ : String := (Char.ofNat 39).toString

/-- The exact inline error of src line 76. -/
def manifestMissingMsg : String :=
  ("CRITICAL: ") ++ SQ ++ ("skyhigh_manifest.json") ++ SQ ++ (" not found.")

/-- The exact inline error of src line 140. -/
def textbookMissingMsg : String :=
  ("CRITICAL: ") ++ SQ ++ ("skyhigh_textbook.xml") ++ SQ ++ (" missing.")

/-- Outcome of a page-script section: a value, an inline error followed by
`st.stop()`, or an uncaught exception. -/
inductive LoadResult (α : Type) where
  | ok : α → LoadResult α
  | halted : String → LoadResult α
  | raised : String → LoadResult α
deriving Repr, DecidableEq

/-- `load_local_assets` (src lines 65-77). The CSS read is outside the
`try`, so a missing `style.css` raises; a missing manifest is caught at this
call site, shows the inline error and stops the script. `parseManifest`
models `json.load`. -/
def load_local_assets (fs : String → Option String)
    (parseManifest : String → Manifest) : LoadResult Manifest :=
  match fs ("style.css") with
  | none => LoadResult.raised ("FileNotFoundError: style.css")
  | some _ =>
    match fs ("skyhigh_manifest.json") with
    | some content => LoadResult.ok (parseManifest content)
    | none => LoadResult.halted manifestMissingMsg

/-- One Vertex AI cached-content entry, as listed by `caching.CachedContent.list()`. -/
structure CachedContent where
  display_name : String
  name : String
deriving Repr, DecidableEq

/-- `CACHE_DISPLAY_NAME` (src line 36). -/
def CACHE_DISPLAY_NAME : String := "alpha-syllabus-cache"

/-- Outcome of `get_or_create_cache`. -/
inductive CacheResult where
  | reused : CachedContent → CacheResult
  | created : String → CacheResult
  | halted : String → CacheResult
deriving Repr, DecidableEq

/-- `get_or_create_cache` (src lines 83-141): reuse the first listed cache
whose display name matches; otherwise read `skyhigh_textbook.xml` and create a
new cache from it — a missing textbook is caught, shows the inline error and
stops. -/
def get_or_create_cache (existing_caches : List CachedContent)
    (fs : String → Option String) : CacheResult :=
  match existing_caches.find? (fun c => c.display_name == CACHE_DISPLAY_NAME) with
  | some c => CacheResult.reused c
  | none =>
    match fs ("skyhigh_textbook.xml") with
    | some xml => CacheResult.created xml
    | none => CacheResult.halted textbookMissingMsg

theorem getD_false_eq_true_iff (o : Option Bool) : (o.getD false = true) ↔ o = some true := by
  cases o with
  | none => simp
  | some b => cases b <;> simp

theorem bang_getD_iff (o : Option Bool) : ((!(o.getD false)) = true) ↔ o ≠ some true := by
  cases o with
  | none => simp
  | some b => cases b <;> simp

theorem find?_append_first {α : Type} (p : α → Bool) (l1 : List α) (a : α) (l2 : List α)
    (h1 : ∀ x ∈ l1, p x = false) (h2 : p a = true) :
    List.find? p (l1 ++ a :: l2) = some a := by
  induction l1 with
  | nil => simp [List.find?_cons_of_pos, h2]
  | cons x xs ih =>
    have hx : p x = false := h1 x (List.mem_cons_self x xs)
    rw [List.cons_append, List.find?_cons_of_neg _ (by simp [hx])]
    exact ih (fun y hy => h1 y (List.mem_cons_of_mem x hy))

/-- Claim C2: in every rendered lesson list, index 0 is always unlocked and a
later index is unlocked exactly when the previous lesson's `archived_status`
is `True`; module 0 is always unlocked and a later module is unlocked exactly
when every lesson of the previous module has `archived_status` `True`. -/
theorem C2_sequential_unlock (archived : List (String × Bool)) (lessons : List Lesson)
    (modules : List CourseModule) (idx i : Nat) :
    (roadmap_is_unlocked archived lessons 0 = true)
    ∧ (∀ prev, 0 < idx → lessons[idx-1]? = some prev →
        (roadmap_is_unlocked archived lessons idx = true ↔
          archived.lookup prev.id = some true))
    ∧ (sidebar_mod_unlocked archived modules 0 = true)
    ∧ (∀ prev, 0 < i → modules[i-1]? = some prev →
        (sidebar_mod_unlocked archived modules i = true ↔
          ∀ l ∈ prev.lessons, archived.lookup l.id = some true)) := by
  refine ⟨by simp [roadmap_is_unlocked], ?_, by simp [sidebar_mod_unlocked], ?_⟩
  · intro prev hpos hget
    have hne : idx ≠ 0 := Nat.pos_iff_ne_zero.mp hpos
    simp [roadmap_is_unlocked, hne, hget]
  · intro prev hpos hget
    have hne : i ≠ 0 := Nat.pos_iff_ne_zero.mp hpos
    simp only [sidebar_mod_unlocked, hne, if_false, hget, List.all_eq_true]
    constructor
    · intro h l hl
      exact (getD_false_eq_true_iff _).mp (h l hl)
    · intro h l hl
      exact (getD_false_eq_true_iff _).mpr (h l hl)

/-- Claim C2 witness: on a concrete two-lesson, two-module manifest state. -/
theorem C2_sequential_unlock_witness :
    roadmap_is_unlocked [(("L1"), true)] [Lesson.mk ("L1") ("A"), Lesson.mk ("L2") ("B")] 1 = true
    ∧ sidebar_mod_unlocked [(("L1"), true)]
        [CourseModule.mk ("M1") ("m") [Lesson.mk ("L1") ("A")],
         CourseModule.mk ("M2") ("n") [Lesson.mk ("L2") ("B")]] 1 = true := by
  have h := C2_sequential_unlock [(("L1"), true)]
    [Lesson.mk ("L1") ("A"), Lesson.mk ("L2") ("B")]
    [CourseModule.mk ("M1") ("m") [Lesson.mk ("L1") ("A")],
     CourseModule.mk ("M2") ("n") [Lesson.mk ("L2") ("B")]] 1 1
  constructor
  · exact (h.2.1 (Lesson.mk ("L1") ("A")) (by decide) (by decide)).mpr (by decide)
  · refine (h.2.2.2 (CourseModule.mk ("M1") ("m") [Lesson.mk ("L1") ("A")])
      (by decide) (by decide)).mpr ?_
    intro l hl
    have : l = Lesson.mk ("L1") ("A") := by
      simpa using hl
    subst this
    decide

/-- Claim C5: Graduate Mode unlocks exactly when the ratio of `True` entries of
`archived_status` (over all keys) to the manifest lesson count is at least 1,
and never with an empty manifest. -/
theorem C5_graduation_ratio (m : Manifest) (archived : List (String × Bool)) :
    check_graduation_status m archived = true ↔
      (all_manifest_lessons m ≠ [] ∧
        (all_manifest_lessons m).length ≤ (archived.filter (fun p => p.2)).length) := by
  simp only [check_graduation_status, decide_eq_true_eq]
  by_cases h : (all_manifest_lessons m).length = 0
  · have hnil : all_manifest_lessons m = [] := List.length_eq_zero.mp h
    simp [h, hnil]
  · have hpos : 0 < (all_manifest_lessons m).length := Nat.pos_of_ne_zero h
    have hQ : (0:ℚ) < ((all_manifest_lessons m).length : ℚ) := by exact_mod_cast hpos
    rw [if_neg h, one_le_div hQ, Nat.cast_le]
    constructor
    · intro hle
      exact ⟨List.ne_nil_of_length_pos hpos, hle⟩
    · intro hconj
      exact hconj.2

/-- Claim C5 witness: a one-lesson manifest with that lesson passed graduates;
an empty manifest with the same ledger does not. -/
theorem C5_graduation_ratio_witness :
    check_graduation_status
      (Manifest.mk [CourseModule.mk ("M1") ("m") [Lesson.mk ("L1") ("A")]] [])
      [(("L1"), true)] = true
    ∧ check_graduation_status (Manifest.mk [] []) [(("L1"), true)] = false := by
  constructor
  · exact (C5_graduation_ratio
      (Manifest.mk [CourseModule.mk ("M1") ("m") [Lesson.mk ("L1") ("A")]] [])
      [(("L1"), true)]).mpr (by decide)
  · have h := C5_graduation_ratio (Manifest.mk [] []) [(("L1"), true)]
    by_contra hc
    have := h.mp (by revert hc; cases check_graduation_status (Manifest.mk [] []) [(("L1"), true)] <;> simp)
    exact this.1 (by decide)

/-- Claim C7: a missing `skyhigh_manifest.json` is caught in
`load_local_assets` and yields the inline error plus `st.stop`; a missing
`skyhigh_textbook.xml` when no warm cache exists is caught in
`get_or_create_cache` and yields its inline error plus `st.stop`. -/
theorem C7_missing_config (fs : String → Option String)
    (parseManifest : String → Manifest) (css : String) (caches : List CachedContent) :
    (fs ("style.css") = some css → fs ("skyhigh_manifest.json") = none →
      load_local_assets fs parseManifest = LoadResult.halted manifestMissingMsg)
    ∧ ((∀ c ∈ caches, c.display_name ≠ CACHE_DISPLAY_NAME) →
        fs ("skyhigh_textbook.xml") = none →
        get_or_create_cache caches fs = CacheResult.halted textbookMissingMsg) := by
  constructor
  · intro h1 h2
    simp [load_local_assets, h1, h2]
  · intro hall h2
    have hf : caches.find? (fun c => c.display_name == CACHE_DISPLAY_NAME) = none := by
      rw [List.find?_eq_none]
      intro c hc
      simpa using hall c hc
    simp [get_or_create_cache, hf, h2]

/-- Claim C7 witness: an empty file system with no warm caches. -/
theorem C7_missing_config_witness :
    load_local_assets (fun n => if n = ("style.css") then some ("css") else none)
        (fun _ => Manifest.mk [] []) = LoadResult.halted manifestMissingMsg
    ∧ get_or_create_cache [] (fun _ => none) = CacheResult.halted textbookMissingMsg := by
  have h := C7_missing_config (fun n => if n = ("style.css") then some ("css") else none)
    (fun _ => Manifest.mk [] []) ("css") []
  exact ⟨h.1 (by decide) (by decide), h.2 (by intro c hc; cases hc) (by decide)⟩

/-- Claim C10: `resolve_asset_url` is total with an exact characterisation of
its `none` results: falsy id, cleaned id absent from the resource library, or
a signing exception (caught and converted to `None`). -/
theorem C10_resolver_totality (sign : SignRequest → Except String String)
    (lib : List (String × AssetInfo)) (asset_id : String) :
    resolve_asset_url sign lib asset_id = none ↔
      (asset_id = "" ∨ lib.lookup (clean_asset_id asset_id) = none ∨
       ∃ info e, lib.lookup (clean_asset_id asset_id) = some info ∧
         sign (sign_request_for info.path) = Except.error e) := by
  unfold resolve_asset_url
  by_cases h : asset_id = ""
  · simp [h]
  · rw [if_neg h]
    cases hl : lib.lookup (clean_asset_id asset_id) with
    | none => simp [h, hl]
    | some info =>
      cases hs : sign (sign_request_for info.path) with
      | ok url => simp [h, hl, hs]
      | error e =>
        simp only [h, hl, hs, false_or]
        constructor
        · intro _
          exact Or.inr ⟨info, e, rfl, hs⟩
        · intro _
          trivial

/-- Claim C6: every signing request the resolver issues carries a 15-minute
expiration; an unknown id or a signing exception yields `None` instead of a
raise; and the HUD column surfaces the inline `Failed to resolve` error for an
asset whose URL could not be resolved. -/
theorem C6_signed_url_generation (sign : SignRequest → Except String String)
    (lib : List (String × AssetInfo)) (m : Manifest) (s : SessionState)
    (asset_id url : String) :
    (∀ p : String, (sign_request_for p).expiration_minutes = 15)
    ∧ (resolve_asset_url sign lib asset_id = some url →
        ∃ info, lib.lookup (clean_asset_id asset_id) = some info ∧
          sign (sign_request_for info.path) = Except.ok url)
    ∧ (∀ info e, lib.lookup (clean_asset_id asset_id) = some info →
        sign (sign_request_for info.path) = Except.error e →
        resolve_asset_url sign lib asset_id = none)
    ∧ (lib.lookup (clean_asset_id asset_id) = none →
        resolve_asset_url sign lib asset_id = none)
    ∧ (∀ aid, s.active_visual = some aid → aid ≠ "" →
        resolve_asset_url sign m.resource_library (clean_asset_id aid) = none →
        hud_asset_column sign m s = HudRender.resolveError (("Failed to resolve ") ++ aid)) := by
  refine ⟨fun p => rfl, ?_, ?_, ?_, ?_⟩
  · intro hres
    by_cases h : asset_id = ""
    · simp [resolve_asset_url, h] at hres
    · cases hl : lib.lookup (clean_asset_id asset_id) with
      | none => simp [resolve_asset_url, h, hl] at hres
      | some info =>
        cases hs : sign (sign_request_for info.path) with
        | ok u =>
          simp [resolve_asset_url, h, hl, hs] at hres
          subst hres
          exact ⟨info, rfl, hs⟩
        | error e => simp [resolve_asset_url, h, hl, hs] at hres
  · intro info e hl hs
    by_cases h : asset_id = ""
    · simp [resolve_asset_url, h]
    · simp [resolve_asset_url, h, hl, hs]
  · intro hl
    by_cases h : asset_id = ""
    · simp [resolve_asset_url, h]
    · simp [resolve_asset_url, h, hl]
  · intro aid hav hne hres
    unfold hud_asset_column
    rw [hav]
    simp only [if_neg hne, hres]

/-- Claim C6 witness: a signer that always raises, on a library containing the
asset, yields `none` and the HUD inline error. -/
theorem C6_signed_url_generation_witness :
    resolve_asset_url (fun _ => Except.error ("boom"))
        [(("IMG-X"), AssetInfo.mk ("img_x.png"))] ("IMG-X") = none
    ∧ hud_asset_column (fun _ => Except.error ("boom"))
        (Manifest.mk [] [(("IMG-X"), AssetInfo.mk ("img_x.png"))])
        (SessionState.mk ("u") true ("GEAR-01") ("M1") [] [] [] [] (some ("IMG-X")) false)
      = HudRender.resolveError (("Failed to resolve ") ++ ("IMG-X")) := by
  have h := C6_signed_url_generation (fun _ => Except.error ("boom"))
    [(("IMG-X"), AssetInfo.mk ("img_x.png"))]
    (Manifest.mk [] [(("IMG-X"), AssetInfo.mk ("img_x.png"))])
    (SessionState.mk ("u") true ("GEAR-01") ("M1") [] [] [] [] (some ("IMG-X")) false)
    ("IMG-X") ("")
  have hres : resolve_asset_url (fun _ => Except.error ("boom"))
      [(("IMG-X"), AssetInfo.mk ("img_x.png"))] ("IMG-X") = none :=
    h.2.2.1 (AssetInfo.mk ("img_x.png")) ("boom") (by decide) rfl
  refine ⟨hres, ?_⟩
  refine h.2.2.2.2 ("IMG-X") rfl (by decide) ?_
  exact h.2.2.1 (AssetInfo.mk ("img_x.png")) ("boom") (by decide) rfl

/-- Claim C9: both lesson-switch handlers first park the live chat under the
outgoing lesson in `lesson_chats`, then hydrate the live buffer from the
incoming lesson's stored transcript (or empty), and the ledger entry of every
other lesson is untouched. -/
theorem C9_transcript_isolation (s : SessionState) (lesson_id : String)
    (md : CourseModule) (hactive : s.active_lesson ≠ "") :
    ((roadmap_button_handler s lesson_id).lesson_chats.lookup s.active_lesson
        = some s.chat_history)
    ∧ (lesson_id ≠ s.active_lesson →
        (roadmap_button_handler s lesson_id).chat_history
          = (s.lesson_chats.lookup lesson_id).getD [])
    ∧ (lesson_id = s.active_lesson →
        (roadmap_button_handler s lesson_id).chat_history = s.chat_history)
    ∧ (∀ lid, lid ≠ s.active_lesson → lid ≠ lesson_id →
        (roadmap_button_handler s lesson_id).lesson_chats.lookup lid
          = s.lesson_chats.lookup lid)
    ∧ (∀ t, sidebar_module_handler s md = some t →
        (t.lesson_chats.lookup s.active_lesson = some s.chat_history)
        ∧ (∀ l0, md.lessons.head? = some l0 → l0.id ≠ s.active_lesson →
            t.chat_history = (s.lesson_chats.lookup l0.id).getD [])
        ∧ (∀ lid, lid ≠ s.active_lesson →
            (∀ l0, md.lessons.head? = some l0 → lid ≠ l0.id) →
            t.lesson_chats.lookup lid = s.lesson_chats.lookup lid)) := by
  refine ⟨?_, ?_, ?_, ?_, ?_⟩
  · simp only [roadmap_button_handler, if_pos hactive]
    exact lookup_setKey_self _ _ _
  · intro hne
    simp only [roadmap_button_handler, if_pos hactive]
    rw [lookup_setKey_ne _ _ _ _ hne]
  · intro heq
    subst heq
    simp only [roadmap_button_handler, if_pos hactive]
    rw [lookup_setKey_self]
    rfl
  · intro lid hne1 _
    simp only [roadmap_button_handler, if_pos hactive]
    exact lookup_setKey_ne _ _ _ _ hne1
  · intro t ht
    cases hhead : md.lessons.head? with
    | none => rw [sidebar_module_handler, hhead] at ht; cases ht
    | some l0 =>
      rw [sidebar_module_handler, hhead] at ht
      simp only [if_pos hactive, Option.some.injEq] at ht
      subst ht
      refine ⟨lookup_setKey_self _ _ _, ?_, ?_⟩
      · intro l1 hl1 hne
        obtain rfl : l0 = l1 := by injection hl1
        dsimp only
        rw [lookup_setKey_ne _ _ _ _ hne]
      · intro lid hne1 hne2
        dsimp only
        exact lookup_setKey_ne _ _ _ _ hne1

/-- Claim C9 witness: switching from GEAR-01 to GEAR-02 on a concrete ledger. -/
theorem C9_transcript_isolation_witness :
    ((roadmap_button_handler
        (SessionState.mk ("u") true ("GEAR-01") ("M1")
          [] [(("GEAR-03"), [ChatMsg.mk ("user") ("z")])] []
          [ChatMsg.mk ("user") ("hi")] none false)
        ("GEAR-02")).lesson_chats.lookup ("GEAR-01")
      = some [ChatMsg.mk ("user") ("hi")])
    ∧ ((roadmap_button_handler
        (SessionState.mk ("u") true ("GEAR-01") ("M1")
          [] [(("GEAR-03"), [ChatMsg.mk ("user") ("z")])] []
          [ChatMsg.mk ("user") ("hi")] none false)
        ("GEAR-02")).lesson_chats.lookup ("GEAR-03")
      = some [ChatMsg.mk ("user") ("z")]) := by
  have h := C9_transcript_isolation
    (SessionState.mk ("u") true ("GEAR-01") ("M1")
      [] [(("GEAR-03"), [ChatMsg.mk ("user") ("z")])] []
      [ChatMsg.mk ("user") ("hi")] none false)
    ("GEAR-02") (CourseModule.mk ("M1") ("m") []) (by decide)
  refine ⟨h.1, ?_⟩
  have h4 := h.2.2.2.1 ("GEAR-03") (by decide) (by decide)
  rw [h4]
  decide

theorem save_audit_status_field (s : SessionState) (h : s.authentication_status = true) :
    (save_audit_progress s).bind (fun d => d.lookup ("status")) =
      some (FieldValue.str
        (if (s.archived_status.lookup s.active_lesson).getD false
         then ("Passed") else ("In Progress"))) := by
  simp [save_audit_progress, h, List.lookup]

theorem update_mastery_status_field (s : SessionState) (lesson_id status : String)
    (h : s.username ≠ "") :
    (update_lesson_mastery s lesson_id status).bind (fun d => d.lookup ("status")) =
      some (FieldValue.str status) := by
  simp [update_lesson_mastery, h, List.lookup]

/-- Claim C1: a processed instructor response marks the active lesson complete
(`archived_status` entry `True`, persisted status field `"Passed"`) exactly
when it contains `[VALIDATE: ALL]`; without the tag, every lesson's
`archived_status` entry is unchanged (and `process_ai_response` issues no
mastery write). This covers both the chat-input handler path and
`process_ai_response`. -/
theorem C1_mastery_detection (s : SessionState) (user_input response : String)
    (hauth : s.authentication_status = true) (huser : s.username ≠ "") :
    (containsValidateAll response = true →
      ((chat_input_handler s user_input response).1.archived_status.lookup s.active_lesson
          = some true)
      ∧ (((chat_input_handler s user_input response).2.bind
            (fun d => d.lookup ("status"))) = some (FieldValue.str ("Passed")))
      ∧ ((process_ai_response s response).1.archived_status.lookup s.active_lesson
          = some true)
      ∧ (((process_ai_response s response).2.bind
            (fun d => d.lookup ("status"))) = some (FieldValue.str ("Passed"))))
    ∧ (containsValidateAll response = false →
      (∀ lid, (chat_input_handler s user_input response).1.archived_status.lookup lid
          = s.archived_status.lookup lid)
      ∧ ((process_ai_response s response).2 = none)
      ∧ (∀ lid, (process_ai_response s response).1.archived_status.lookup lid
          = s.archived_status.lookup lid)) := by
  constructor
  · intro hv
    refine ⟨?_, ?_, ?_, ?_⟩
    · cases hfa : (findAssetTags true response).head? with
      | none =>
        simp only [chat_input_handler, hfa, hv, if_true]
        exact lookup_setKey_self _ _ _
      | some g =>
        simp only [chat_input_handler, hfa, hv, if_true]
        exact lookup_setKey_self _ _ _
    · cases hfa : (findAssetTags true response).head? with
      | none =>
        simp only [chat_input_handler, hfa, hv, if_true]
        rw [save_audit_status_field _ (by simpa using hauth)]
        simp [lookup_setKey_self]
      | some g =>
        simp only [chat_input_handler, hfa, hv, if_true]
        rw [save_audit_status_field _ (by simpa using hauth)]
        simp [lookup_setKey_self]
    · cases hfa : (findAssetTags false response).getLast? with
      | none =>
        simp only [process_ai_response, hfa, hv, if_true]
        exact lookup_setKey_self _ _ _
      | some g =>
        simp only [process_ai_response, hfa, hv, if_true]
        exact lookup_setKey_self _ _ _
    · cases hfa : (findAssetTags false response).getLast? with
      | none =>
        simp only [process_ai_response, hfa, hv, if_true]
        rw [update_mastery_status_field _ _ _ (by simpa using huser)]
      | some g =>
        simp only [process_ai_response, hfa, hv, if_true]
        rw [update_mastery_status_field _ _ _ (by simpa using huser)]
  · intro hv
    refine ⟨?_, ?_, ?_⟩
    · intro lid
      cases hfa : (findAssetTags true response).head? with
      | none => simp [chat_input_handler, hfa, hv]
      | some g => simp [chat_input_handler, hfa, hv]
    · cases hfa : (findAssetTags false response).getLast? with
      | none => simp [process_ai_response, hfa, hv]
      | some g => simp [process_ai_response, hfa, hv]
    · intro lid
      cases hfa : (findAssetTags false response).getLast? with
      | none => simp [process_ai_response, hfa, hv]
      | some g => simp [process_ai_response, hfa, hv]

/-- A reusable concrete logged-in session state. -/
def wState (lesson : String) : SessionState :=
  SessionState.mk ("u@example.com") true lesson ("MOD-01") [] [] [] [] none false

/-- Claim C1 witness: a tagged response marks `GEAR-01` complete and persists
`"Passed"`; an untagged response leaves the (empty) ledger entry unchanged. -/
theorem C1_mastery_detection_witness :
    ((chat_input_handler (wState ("GEAR-01")) ("q") ("Done. [VALIDATE: ALL]")).1.archived_status.lookup
        ("GEAR-01") = some true)
    ∧ (((chat_input_handler (wState ("GEAR-01")) ("q") ("Done. [VALIDATE: ALL]")).2.bind
          (fun d => d.lookup ("status"))) = some (FieldValue.str ("Passed")))
    ∧ ((chat_input_handler (wState ("GEAR-01")) ("q") ("Keep trying.")).1.archived_status.lookup
        ("GEAR-01") = none) := by
  have ht := C1_mastery_detection (wState ("GEAR-01")) ("q") ("Done. [VALIDATE: ALL]")
    (by decide) (by decide)
  have hu := C1_mastery_detection (wState ("GEAR-01")) ("q") ("Keep trying.")
    (by decide) (by decide)
  have h1 := ht.1 (by decide)
  have h2 := (hu.2 (by decide)).1 ("GEAR-01")
  refine ⟨h1.1, h1.2.1, ?_⟩
  rw [h2]
  decide

/-- Claim C3 counterexample: the persisted completion field is the string
`"In Progress"` (or `"Passed"`), not a boolean or a numeric score, so the
claimed field type is wrong on every write `save_audit_progress` makes. -/
theorem C3_counterexample :
    ((save_audit_progress (wState ("GEAR-01"))).bind (fun d => d.lookup ("status"))
      = some (FieldValue.str ("In Progress")))
    ∧ FieldValue.isBoolOrNumeric (FieldValue.str ("In Progress")) = false := by
  decide

/-- Claim C3 (amended): the per-lesson progress record has exactly the fields
lesson id, a STRING completion status (`"Passed"` or `"In Progress"` from
`save_audit_progress`; the caller-supplied status string in
`update_lesson_mastery`), the chat transcript as ordered role/text pairs, the
last-surfaced asset id (`save_audit_progress`) or the lesson's surfaced-asset
list (`update_lesson_mastery`), and a server timestamp; the user-credential
record carries email, company, name, hashed password, the two free-text
profile fields, and a creation timestamp. -/
theorem C3_amended_data_model (s : SessionState) (hash : String → String)
    (em co nm pw ex asp lesson_id status : String)
    (hauth : s.authentication_status = true) (huser : s.username ≠ "") :
    ((save_audit_progress s).map (fun d => d.map Prod.fst)
        = some [("lesson_id"), ("status"), ("chat_history"), ("assets_surfaced"),
                ("last_updated")])
    ∧ (∃ st, (save_audit_progress s).bind (fun d => d.lookup ("status"))
          = some (FieldValue.str st) ∧ (st = ("Passed") ∨ st = ("In Progress")))
    ∧ ((save_audit_progress s).bind (fun d => d.lookup ("lesson_id"))
        = some (FieldValue.str s.active_lesson))
    ∧ ((save_audit_progress s).bind (fun d => d.lookup ("chat_history"))
        = some (FieldValue.chatList s.chat_history))
    ∧ ((save_audit_progress s).bind (fun d => d.lookup ("assets_surfaced"))
        = some (FieldValue.str ((s.active_visual).getD (""))))
    ∧ ((save_audit_progress s).bind (fun d => d.lookup ("last_updated"))
        = some FieldValue.timestamp)
    ∧ ((update_lesson_mastery s lesson_id status).map (fun d => d.map Prod.fst)
        = some [("lesson_id"), ("status"), ("chat_history"), ("assets_surfaced"),
                ("last_updated")])
    ∧ ((update_lesson_mastery s lesson_id status).bind (fun d => d.lookup ("status"))
        = some (FieldValue.str status))
    ∧ ((update_lesson_mastery s lesson_id status).bind (fun d => d.lookup ("assets_surfaced"))
        = some (FieldValue.strList ((s.lesson_assets.lookup lesson_id).getD [])))
    ∧ ((registration_user_doc hash em co nm pw ex asp).map Prod.fst
        = [("email"), ("company"), ("full_name"), ("password"), ("experience"),
           ("aspiration"), ("created_at")])
    ∧ ((registration_user_doc hash em co nm pw ex asp).lookup ("password")
        = some (FieldValue.str (hash pw))) := by
  refine ⟨?_, ?_, ?_, ?_, ?_, ?_, ?_, ?_, ?_, ?_, ?_⟩
  · simp [save_audit_progress, hauth]
  · by_cases hb : (s.archived_status.lookup s.active_lesson).getD false
    · exact ⟨("Passed"), by simp [save_audit_progress, hauth, hb, List.lookup], Or.inl rfl⟩
    · exact ⟨("In Progress"), by simp [save_audit_progress, hauth, hb, List.lookup], Or.inr rfl⟩
  · simp [save_audit_progress, hauth, List.lookup]
  · simp [save_audit_progress, hauth, List.lookup]
  · simp [save_audit_progress, hauth, List.lookup]
  · simp [save_audit_progress, hauth, List.lookup]
  · simp [update_lesson_mastery, huser]
  · simp [update_lesson_mastery, huser, List.lookup]
  · simp [update_lesson_mastery, huser, List.lookup]
  · simp [registration_user_doc]
  · simp [registration_user_doc, List.lookup]

/-- Claim C3 (amended) witness: the concrete logged-in state with concrete
registration fields. -/
theorem C3_amended_data_model_witness :
    ((save_audit_progress (wState ("GEAR-01"))).map (fun d => d.map Prod.fst)
        = some [("lesson_id"), ("status"), ("chat_history"), ("assets_surfaced"),
                ("last_updated")])
    ∧ ((registration_user_doc (fun p => p ++ ("#h")) ("e@x.com") ("Co") ("Nm") ("pw")
          ("exp") ("asp")).lookup ("password") = some (FieldValue.str ("pw#h"))) := by
  have h := C3_amended_data_model (wState ("GEAR-01")) (fun p => p ++ ("#h"))
    ("e@x.com") ("Co") ("Nm") ("pw") ("exp") ("asp") ("GEAR-01") ("Passed")
    (by decide) (by decide)
  exact ⟨h.1, h.2.2.2.2.2.2.2.2.2.2⟩

/-- Claim C4 counterexample: for the chat-input handler, a response carrying
the tags `[IMG-a]` then `[VID-b]` records `active_visual = "IMG-A"` — the
FIRST tag, uppercased — not the last tag `"VID-b"` the claim requires. -/
theorem C4_counterexample :
    ((findAssetTags true ("See [IMG-a] then [VID-b]")).getLast? = some ("VID-b"))
    ∧ ((chat_input_handler (wState ("GEAR-01")) ("q")
          ("See [IMG-a] then [VID-b]")).1.active_visual = some ("IMG-A"))
    ∧ (some ("IMG-A") ≠ some ("VID-b")) := by
  decide

/-- Claim C4 (amended): `process_ai_response` records the LAST tag capture
verbatim and appends it to the lesson's asset list; the module-level
chat-input handler records the FIRST tag capture uppercased and appends that;
the handshake handler records the FIRST capture uppercased and never touches
the asset list; in all three, a response with no tag leaves `active_visual`
(and the asset list) unchanged. -/
theorem C4_amended_asset_tags (s : SessionState) (user_input response : String) :
    (∀ g, (findAssetTags false response).getLast? = some g →
        ((process_ai_response s response).1.active_visual = some (pyStripStr g))
        ∧ ((process_ai_response s response).1.lesson_assets.lookup s.active_lesson
            = some (((s.lesson_assets.lookup s.active_lesson).getD []) ++ [pyStripStr g])))
    ∧ ((findAssetTags false response).getLast? = none →
        ((process_ai_response s response).1.active_visual = s.active_visual)
        ∧ ((process_ai_response s response).1.lesson_assets = s.lesson_assets))
    ∧ (∀ g, (findAssetTags true response).head? = some g →
        ((chat_input_handler s user_input response).1.active_visual
            = some (pyUpper (pyStripStr g)))
        ∧ ((chat_input_handler s user_input response).1.lesson_assets.lookup s.active_lesson
            = some (((s.lesson_assets.lookup s.active_lesson).getD [])
                ++ [pyUpper (pyStripStr g)])))
    ∧ ((findAssetTags true response).head? = none →
        ((chat_input_handler s user_input response).1.active_visual = s.active_visual)
        ∧ ((chat_input_handler s user_input response).1.lesson_assets = s.lesson_assets))
    ∧ (∀ g, (findAssetTags true response).head? = some g →
        (handshake_handler s response).1.active_visual = some (pyUpper (pyStripStr g)))
    ∧ ((findAssetTags true response).head? = none →
        (handshake_handler s response).1.active_visual = s.active_visual)
    ∧ ((handshake_handler s response).1.lesson_assets = s.lesson_assets) := by
  refine ⟨?_, ?_, ?_, ?_, ?_, ?_, ?_⟩
  · intro g hfa
    cases hcv : containsValidateAll response with
    | true => exact ⟨by simp [process_ai_response, hfa, hcv],
        by simp [process_ai_response, hfa, hcv, lookup_setKey_self]⟩
    | false => exact ⟨by simp [process_ai_response, hfa, hcv],
        by simp [process_ai_response, hfa, hcv, lookup_setKey_self]⟩
  · intro hfa
    cases hcv : containsValidateAll response with
    | true => exact ⟨by simp [process_ai_response, hfa, hcv],
        by simp [process_ai_response, hfa, hcv]⟩
    | false => exact ⟨by simp [process_ai_response, hfa, hcv],
        by simp [process_ai_response, hfa, hcv]⟩
  · intro g hfa
    cases hcv : containsValidateAll response with
    | true => exact ⟨by simp [chat_input_handler, hfa, hcv],
        by simp [chat_input_handler, hfa, hcv, lookup_setKey_self]⟩
    | false => exact ⟨by simp [chat_input_handler, hfa, hcv],
        by simp [chat_input_handler, hfa, hcv, lookup_setKey_self]⟩
  · intro hfa
    cases hcv : containsValidateAll response with
    | true => exact ⟨by simp [chat_input_handler, hfa, hcv],
        by simp [chat_input_handler, hfa, hcv]⟩
    | false => exact ⟨by simp [chat_input_handler, hfa, hcv],
        by simp [chat_input_handler, hfa, hcv]⟩
  · intro g hfa
    simp [handshake_handler, hfa]
  · intro hfa
    simp [handshake_handler, hfa]
  · cases hfa : (findAssetTags true response).head? with
    | none => simp [handshake_handler, hfa]
    | some g => simp [handshake_handler, hfa]

/-- Claim C4 (amended) witness: on the two-tag response, `process_ai_response`
records the last tag verbatim while the chat-input handler records the first
tag uppercased and appends it to the lesson asset list. -/
theorem C4_amended_asset_tags_witness :
    ((process_ai_response (wState ("GEAR-01"))
        ("See [IMG-a] then [VID-b]")).1.active_visual = some ("VID-b"))
    ∧ ((chat_input_handler (wState ("GEAR-01")) ("q")
        ("See [IMG-a] then [VID-b]")).1.active_visual = some ("IMG-A"))
    ∧ ((chat_input_handler (wState ("GEAR-01")) ("q")
        ("See [IMG-a] then [VID-b]")).1.lesson_assets.lookup
          ((wState ("GEAR-01")).active_lesson) = some [("IMG-A")]) := by
  have h := C4_amended_asset_tags (wState ("GEAR-01")) ("q") ("See [IMG-a] then [VID-b]")
  have h1 := h.1 ("VID-b") (by decide)
  have h3 := h.2.2.1 ("IMG-a") (by decide)
  refine ⟨?_, ?_, ?_⟩
  · rw [h1.1]
    decide
  · rw [h3.1]
    decide
  · rw [h3.2]
    decide

/-- Claim C8: after hydration, the active lesson is the first manifest lesson
whose hydrated `archived_status` is not `True`, with fallback `"GEAR-01"` when
every manifest lesson is passed (including the empty manifest); the live chat
becomes that lesson's stored transcript (or empty) and the active module
becomes the first module whose lesson-id list contains the resumed lesson. -/
theorem C8_smart_resume (m : Manifest) (docs : List LessonDoc) (s : SessionState) :
    ((∀ lid ∈ all_manifest_lessons m, (hydrate_status docs).lookup lid = some true) →
      (load_audit_progress m docs s).active_lesson = ("GEAR-01"))
    ∧ (∀ l1 lid l2, all_manifest_lessons m = l1 ++ lid :: l2 →
        (∀ x ∈ l1, (hydrate_status docs).lookup x = some true) →
        (hydrate_status docs).lookup lid ≠ some true →
        (load_audit_progress m docs s).active_lesson = lid)
    ∧ ((load_audit_progress m docs s).chat_history
        = ((hydrate_chats docs).lookup ((load_audit_progress m docs s).active_lesson)).getD [])
    ∧ (∀ m1 md m2, m.modules = m1 ++ md :: m2 →
        (∀ mo ∈ m1, ((mo.lessons.map Lesson.id).contains
            ((load_audit_progress m docs s).active_lesson)) = false) →
        ((md.lessons.map Lesson.id).contains
            ((load_audit_progress m docs s).active_lesson)) = true →
        (load_audit_progress m docs s).active_mod = md.id) := by
  refine ⟨?_, ?_, ?_, ?_⟩
  · intro hall
    have hfind : (all_manifest_lessons m).find?
        (fun lid => ! (((hydrate_status docs).lookup lid).getD false)) = none := by
      rw [List.find?_eq_none]
      intro lid hmem
      simp [(getD_false_eq_true_iff ((hydrate_status docs).lookup lid)).mpr (hall lid hmem)]
    simp only [load_audit_progress, hfind]
    rfl
  · intro l1 lid l2 hsplit hprev hcur
    have hfind : (all_manifest_lessons m).find?
        (fun x => ! (((hydrate_status docs).lookup x).getD false)) = some lid := by
      rw [hsplit]
      refine find?_append_first _ l1 lid l2 ?_ ?_
      · intro x hx
        have hz := hprev x hx
        simp [(getD_false_eq_true_iff ((hydrate_status docs).lookup x)).mpr hz]
      · exact (bang_getD_iff ((hydrate_status docs).lookup lid)).mpr hcur
    simp only [load_audit_progress, hfind]
    rfl
  · simp only [load_audit_progress]
  · intro m1 md m2 hsplit hprev hcur
    simp only [load_audit_progress] at hprev hcur ⊢
    have hfind : m.modules.find? (fun mo => (mo.lessons.map Lesson.id).contains
        (((all_manifest_lessons m).find?
          (fun lid => ! (((hydrate_status docs).lookup lid).getD false))).getD ("GEAR-01")))
        = some md := by
      rw [hsplit]
      refine find?_append_first _ m1 md m2 ?_ hcur
      intro mo hmo
      exact hprev mo hmo
    rw [hfind]

/-- Claim C8 witness: with lesson `L1` passed and `L2` not, resume lands on
`L2` in module `M1` with its stored transcript; with every lesson passed, the
fallback is `GEAR-01`. -/
theorem C8_smart_resume_witness :
    ((load_audit_progress
        (Manifest.mk
          [CourseModule.mk ("M1") ("a") [Lesson.mk ("L1") ("x"), Lesson.mk ("L2") ("y")],
           CourseModule.mk ("M2") ("b") [Lesson.mk ("L3") ("z")]] [])
        [LessonDoc.mk ("L1") ("Passed") [ChatMsg.mk ("user") ("hi")]]
        (wState ("GEAR-01"))).active_lesson = ("L2"))
    ∧ ((load_audit_progress
        (Manifest.mk
          [CourseModule.mk ("M1") ("a") [Lesson.mk ("L1") ("x"), Lesson.mk ("L2") ("y")],
           CourseModule.mk ("M2") ("b") [Lesson.mk ("L3") ("z")]] [])
        [LessonDoc.mk ("L1") ("Passed") [ChatMsg.mk ("user") ("hi")]]
        (wState ("GEAR-01"))).active_mod = ("M1"))
    ∧ ((load_audit_progress
        (Manifest.mk [CourseModule.mk ("M1") ("a") [Lesson.mk ("L1") ("x")]] [])
        [LessonDoc.mk ("L1") ("Passed") []]
        (wState ("GEAR-01"))).active_lesson = ("GEAR-01")) := by
  have h1 := C8_smart_resume
    (Manifest.mk
      [CourseModule.mk ("M1") ("a") [Lesson.mk ("L1") ("x"), Lesson.mk ("L2") ("y")],
       CourseModule.mk ("M2") ("b") [Lesson.mk ("L3") ("z")]] [])
    [LessonDoc.mk ("L1") ("Passed") [ChatMsg.mk ("user") ("hi")]]
    (wState ("GEAR-01"))
  have h2 := C8_smart_resume
    (Manifest.mk [CourseModule.mk ("M1") ("a") [Lesson.mk ("L1") ("x")]] [])
    [LessonDoc.mk ("L1") ("Passed") []]
    (wState ("GEAR-01"))
  have hres := h1.2.1 [("L1")] ("L2") [("L3")] (by decide) (by decide) (by decide)
  refine ⟨hres, ?_, ?_⟩
  · refine h1.2.2.2
      []
      (CourseModule.mk ("M1") ("a") [Lesson.mk ("L1") ("x"), Lesson.mk ("L2") ("y")])
      [CourseModule.mk ("M2") ("b") [Lesson.mk ("L3") ("z")]]
      (by decide) (by intro mo hmo; cases hmo) ?_
    rw [hres]
    decide
  · refine h2.1 ?_
    intro lid hmem
    have hall : all_manifest_lessons
        (Manifest.mk [CourseModule.mk ("M1") ("a") [Lesson.mk ("L1") ("x")]] [])
        = [("L1")] := by decide
    rw [hall] at hmem
    have hl : lid = ("L1") := by simpa using hmem
    subst hl
    decide
